import Mathlib

/-
  Verification of the farm-entry widget of `src/frontend/configuration/farm.rs`
  (Inoutik/space-acres): a validated-entry state machine pairing a storage
  directory with a size allocation, with change-flag tracking and
  level-triggered validity notifications to an owning collection.
-/

namespace SpaceAcres

/-- Paths are modelled as plain strings; `PathBuf::new()` is the empty string. -/
abbrev PathBuf := String

/-- Modelled from the spec: the stable identity token (`DynamicIndex`) assigned
by the owning collection is opaque; the entry only clones and tags events with
it, so any type with decidable equality suffices. -/
abbrev DynamicIndex := Nat

/-- Modelled from the spec: `MaybeValid<T>` (declared in
`frontend/configuration`, outside the given sources) wraps a value with a
validity flag and two changed-since-last-reset bits, one for the value and one
for the validity flag. -/
structure MaybeValid (T : Type) where
  value : T
  is_valid : Bool
  value_changed : Bool
  validity_changed : Bool
deriving DecidableEq, Repr

namespace MaybeValid

variable {T : Type}

/-- Modelled from the spec: the "valid" constructor; both changed bits start
true so the first render reflects the initial state. -/
def yes (value : T) : MaybeValid T :=
  { value := value, is_valid := true, value_changed := true, validity_changed := true }

/-- Modelled from the spec: the "invalid" constructor; both changed bits start
true so the first render reflects the initial state. -/
def no (value : T) : MaybeValid T :=
  { value := value, is_valid := false, value_changed := true, validity_changed := true }

/-- Modelled from the spec: any explicit set of the validity flag marks
`validity_changed` unconditionally, even if the flag value is unchanged. -/
def set_is_valid (f : MaybeValid T) (b : Bool) : MaybeValid T :=
  { f with is_valid := b, validity_changed := true }

/-- Modelled from the spec: replacing the raw value marks `value_changed`. -/
def replace_value (f : MaybeValid T) (v : T) : MaybeValid T :=
  { f with value := v, value_changed := true }

/-- Modelled from the spec: clears both changed bits; called by the owner at
the start of each update cycle. -/
def reset (f : MaybeValid T) : MaybeValid T :=
  { f with value_changed := false, validity_changed := false }

end MaybeValid

/-- `MIN_FARM_SIZE`: 2 GB, decimal (`1000 * 1000 * 1000 * 2`). -/
def MIN_FARM_SIZE : Nat := 1000 * 1000 * 1000 * 2

namespace ByteSize

/-- Modelled from the spec: unit multipliers of the external human-readable
byte-size parser (`bytesize` crate), case-insensitive, decimal and binary
units; a bare number is bytes. -/
def unitMultiplier (u : String) : Option Nat :=
  match u.toList.map Char.toLower with
  | [] => some 1
  | ['b'] => some 1
  | ['k'] => some 1000
  | ['k', 'b'] => some 1000
  | ['k', 'i', 'b'] => some 1024
  | ['m'] => some 1000000
  | ['m', 'b'] => some 1000000
  | ['m', 'i', 'b'] => some 1048576
  | ['g'] => some 1000000000
  | ['g', 'b'] => some 1000000000
  | ['g', 'i', 'b'] => some 1073741824
  | ['t'] => some 1000000000000
  | ['t', 'b'] => some 1000000000000
  | ['t', 'i', 'b'] => some 1099511627776
  | ['p'] => some 1000000000000000
  | ['p', 'b'] => some 1000000000000000
  | ['p', 'i', 'b'] => some 1125899906842624
  | _ => none

/-- Digit run to a natural number. -/
def digitsToNat (cs : List Char) : Nat :=
  cs.foldl (fun a c => a * 10 + (c.toNat - 48)) 0

/-- Modelled from the spec: the external byte-size parser (`bytesize` crate,
not part of the sources). A mantissa of decimal digits, optionally followed by
whitespace and a unit, yields mantissa × multiplier bytes; anything else fails.
Fractional mantissas are outside the model. -/
def from_str (s : String) : Option Nat :=
  let cs := s.toList
  let digits := cs.takeWhile Char.isDigit
  let rest := (cs.dropWhile Char.isDigit).dropWhile Char.isWhitespace
  if digits.isEmpty then
    none
  else
    (unitMultiplier (String.mk rest)).map (fun mult => digitsToNat digits * mult)

end ByteSize

/-- `is_size_valid`: the size text parses as a byte-size quantity and the
parsed value meets `MIN_FARM_SIZE`; a failed parse defaults to `false`. -/
def is_size_valid (size : String) : Bool :=
  ((ByteSize.from_str size).map (fun size => decide (MIN_FARM_SIZE ≤ size))).getD false

/-- `FarmWidgetInit`: initial path and size text. -/
structure FarmWidgetInit where
  path : PathBuf
  size : String
deriving DecidableEq, Repr

/-- `FarmWidgetInit::default()`: empty path, empty size text. -/
def FarmWidgetInit.default : FarmWidgetInit :=
  { path := "", size := "" }

/-- `FarmWidgetInput`: the two input events. -/
inductive FarmWidgetInput where
  | DirectorySelected (path : PathBuf)
  | FarmSizeChanged (size : String)
deriving DecidableEq, Repr

/-- `FarmWidgetOutput`: events sent up to the owning collection. -/
inductive FarmWidgetOutput where
  | OpenDirectory (index : DynamicIndex)
  | ValidityUpdate
  | Delete (index : DynamicIndex)
deriving DecidableEq, Repr

instance : BEq FarmWidgetOutput := ⟨fun a b => decide (a = b)⟩

instance : LawfulBEq FarmWidgetOutput where
  eq_of_beq h := of_decide_eq_true h
  rfl := by simp [BEq.beq]

/-- `FarmWidget`: the entry state — identity token plus the two validated
fields. -/
structure FarmWidget where
  index : DynamicIndex
  path : MaybeValid PathBuf
  size : MaybeValid String
deriving DecidableEq, Repr

/-- Modelled from the spec: the environment of an entry — the asynchronous
filesystem writability probe `is_directory_writable` (declared in
`frontend/configuration/utils`, outside the given sources) as a boolean
oracle, and whether the owning collection still listens for outbound
notifications. -/
structure Env where
  is_directory_writable : PathBuf → Bool
  output_alive : Bool

/-- Result of one operation: the entry state, the `ValidityUpdate`
notifications the entry attempted to send, and the number of delivery
failures it logged (`warn!`) because the collection was no longer listening. -/
structure StepResult where
  state : FarmWidget
  emitted : List FarmWidgetOutput
  warnings : Nat
deriving Repr

/-- Modelled from the spec: `sender.output(o)` — the attempt is recorded; if
the collection is gone the failure is logged and otherwise ignored. -/
def Env.send (env : Env) (o : FarmWidgetOutput) : List FarmWidgetOutput × Nat :=
  ([o], if env.output_alive then 0 else 1)

namespace FarmWidget

/-- `FarmWidget::valid`: aggregate validity, recomputed on demand. -/
def valid (w : FarmWidget) : Bool :=
  w.path.is_valid && w.size.is_valid

/-- `Farm` (from `backend::config`): the persisted domain shape. -/
structure Farm where
  path : PathBuf
  size : String
deriving DecidableEq, Repr

/-- `FarmWidget::farm`: snapshot of the current path and size text. -/
def farm (w : FarmWidget) : Farm :=
  { path := w.path.value, size := w.size.value }

/-- `FarmWidget::init_model`: probes writability of the initial path, parses
the initial size text, then unconditionally notifies the collection that
validity was updated. -/
def init_model (env : Env) (value : FarmWidgetInit) (index : DynamicIndex) : StepResult :=
  let inst : FarmWidget :=
    { index := index
      path :=
        if env.is_directory_writable value.path then
          MaybeValid.yes value.path
        else
          MaybeValid.no value.path
      size :=
        if is_size_valid value.size then
          MaybeValid.yes value.size
        else
          MaybeValid.no value.size }
  let sent := env.send FarmWidgetOutput.ValidityUpdate
  { state := inst, emitted := sent.1, warnings := sent.2 }

/-- `FarmWidget::update`: resets both fields' change flags, records aggregate
validity, applies the event to the touched field, and notifies on an aggregate
validity flip. -/
def update (env : Env) (w : FarmWidget) (input : FarmWidgetInput) : StepResult :=
  let w := { w with path := w.path.reset, size := w.size.reset }
  let was_valid := w.valid
  let w :=
    match input with
    | FarmWidgetInput.DirectorySelected path =>
        { w with
          path :=
            if env.is_directory_writable path then
              MaybeValid.yes path
            else
              MaybeValid.no path }
    | FarmWidgetInput.FarmSizeChanged size =>
        { w with size := (w.size.set_is_valid (is_size_valid size)).replace_value size }
  let is_valid := w.valid
  if was_valid != is_valid then
    let sent := env.send FarmWidgetOutput.ValidityUpdate
    { state := w, emitted := sent.1, warnings := sent.2 }
  else
    { state := w, emitted := [], warnings := 0 }

/-- The error label under the path row:
`set_visible: !self.path.is_valid && self.path.value != PathBuf::new()`. -/
def path_error_label_visible (w : FarmWidget) : Bool :=
  !w.path.is_valid && w.path.value != ""

end FarmWidget

section Theorems

open FarmWidget FarmWidgetInput FarmWidgetOutput

/-- Resetting change flags does not touch the validity flag. -/
theorem MaybeValid.reset_is_valid {T : Type} (f : MaybeValid T) :
    f.reset.is_valid = f.is_valid := rfl

/-- `update` unfolded on a `DirectorySelected` event. -/
theorem update_directory_selected (env : Env) (w : FarmWidget) (p : PathBuf) :
    update env w (DirectorySelected p) =
      if w.valid != (env.is_directory_writable p && w.size.is_valid) then
        { state :=
            { index := w.index
              path := if env.is_directory_writable p then MaybeValid.yes p else MaybeValid.no p
              size := w.size.reset }
          emitted := [ValidityUpdate]
          warnings := if env.output_alive then 0 else 1 }
      else
        { state :=
            { index := w.index
              path := if env.is_directory_writable p then MaybeValid.yes p else MaybeValid.no p
              size := w.size.reset }
          emitted := []
          warnings := 0 } := by
  cases hp : env.is_directory_writable p <;>
    simp [update, valid, MaybeValid.reset, MaybeValid.yes, MaybeValid.no, Env.send, hp]

/-- `update` unfolded on a `FarmSizeChanged` event. -/
theorem update_farm_size_changed (env : Env) (w : FarmWidget) (s : String) :
    update env w (FarmSizeChanged s) =
      if w.valid != (w.path.is_valid && is_size_valid s) then
        { state :=
            { index := w.index
              path := w.path.reset
              size :=
                { value := s, is_valid := is_size_valid s
                  value_changed := true, validity_changed := true } }
          emitted := [ValidityUpdate]
          warnings := if env.output_alive then 0 else 1 }
      else
        { state :=
            { index := w.index
              path := w.path.reset
              size :=
                { value := s, is_valid := is_size_valid s
                  value_changed := true, validity_changed := true } }
          emitted := []
          warnings := 0 } := by
  simp [update, valid, MaybeValid.reset, MaybeValid.set_is_valid, MaybeValid.replace_value,
    Env.send]

/-- The state after a `DirectorySelected` event, independent of the
notification branch. -/
theorem update_state_directory_selected (env : Env) (w : FarmWidget) (p : PathBuf) :
    (update env w (DirectorySelected p)).state =
      { index := w.index
        path := if env.is_directory_writable p then MaybeValid.yes p else MaybeValid.no p
        size := w.size.reset } := by
  rw [update_directory_selected]
  split <;> rfl

/-- The state after a `FarmSizeChanged` event, independent of the
notification branch. -/
theorem update_state_farm_size_changed (env : Env) (w : FarmWidget) (s : String) :
    (update env w (FarmSizeChanged s)).state =
      { index := w.index
        path := w.path.reset
        size :=
          { value := s, is_valid := is_size_valid s
            value_changed := true, validity_changed := true } } := by
  rw [update_farm_size_changed]
  split <;> rfl

/-- C1: an update event emits a `ValidityUpdate` notification exactly when the
aggregate validity after processing differs from the aggregate validity before
it — one notification on a flip, none otherwise, and nothing else is emitted. -/
theorem c1_validity_update_iff_flip (env : Env) (w : FarmWidget) (input : FarmWidgetInput) :
    (update env w input).emitted =
      (if w.valid = (update env w input).state.valid then []
       else [ValidityUpdate])
    ∧ (update env w input).emitted.count ValidityUpdate =
      (if w.valid = (update env w input).state.valid then 0 else 1) := by
  cases input with
  | DirectorySelected p =>
      rw [update_directory_selected]
      cases hv : w.valid <;>
        cases hp : env.is_directory_writable p <;>
        cases hs : w.size.is_valid <;>
        simp_all [valid, MaybeValid.reset, MaybeValid.yes, MaybeValid.no]
  | FarmSizeChanged s =>
      rw [update_farm_size_changed]
      cases hv : w.valid <;>
        cases hs : is_size_valid s <;>
        cases hp : w.path.is_valid <;>
        simp_all [valid, MaybeValid.reset]

/-- C2: the size-validity check holds exactly when the text parses as a
byte-size quantity of at least 2,000,000,000 bytes; in particular
2,000,000,000 bytes is valid, 1,999,999,999 bytes is not, and an unparsable
string is not. -/
theorem c2_is_size_valid_iff_parse_and_threshold :
    (∀ s : String, is_size_valid s = true ↔
      ∃ n : Nat, ByteSize.from_str s = some n ∧ 2000000000 ≤ n)
    ∧ is_size_valid "2000000000" = true
    ∧ is_size_valid "1999999999" = false
    ∧ is_size_valid "abc" = false := by
  refine ⟨fun s => ?_, by decide, by decide, by decide⟩
  cases h : ByteSize.from_str s <;> simp [is_size_valid, MIN_FARM_SIZE, h]

/-- C3: aggregate validity is exactly the conjunction of the two fields'
validity flags, recomputed from the state each call, so repeated calls without
mutation agree. -/
theorem c3_valid_is_conjunction (w : FarmWidget) :
    w.valid = (w.path.is_valid && w.size.is_valid) ∧ w.valid = w.valid :=
  ⟨rfl, rfl⟩

/-- C4: in both initialization and `DirectorySelected` handling, the path
field's validity equals the writability probe's boolean result, with no other
influence. -/
theorem c4_path_validity_equals_probe (env : Env) :
    (∀ (v : FarmWidgetInit) (i : DynamicIndex),
      (init_model env v i).state.path.is_valid = env.is_directory_writable v.path)
    ∧ (∀ (w : FarmWidget) (p : PathBuf),
      (update env w (DirectorySelected p)).state.path.is_valid =
        env.is_directory_writable p) := by
  constructor
  · intro v i
    cases hp : env.is_directory_writable v.path <;>
      simp [init_model, MaybeValid.yes, MaybeValid.no, hp]
  · intro w p
    rw [update_state_directory_selected]
    cases hp : env.is_directory_writable p <;>
      simp [MaybeValid.yes, MaybeValid.no, hp]

/-- Projection of the probe out of a literal environment. -/
theorem Env.mk_probe (f : PathBuf → Bool) (a : Bool) (p : PathBuf) :
    Env.is_directory_writable ⟨f, a⟩ p = f p := rfl

/-- Projection of the liveness flag out of a literal environment. -/
theorem Env.mk_alive (f : PathBuf → Bool) (a : Bool) :
    Env.output_alive ⟨f, a⟩ = a := rfl

/-- The state and the emitted notifications of `update` do not depend on
whether the collection still listens; only the logged warning count does. -/
theorem update_alive_invariant (probe : PathBuf → Bool) (a1 a2 : Bool) (w : FarmWidget)
    (input : FarmWidgetInput) :
    (update ⟨probe, a1⟩ w input).state = (update ⟨probe, a2⟩ w input).state
    ∧ (update ⟨probe, a1⟩ w input).emitted = (update ⟨probe, a2⟩ w input).emitted := by
  cases input with
  | DirectorySelected p =>
      rw [update_directory_selected, update_directory_selected]
      simp only [Env.mk_probe, Env.mk_alive]
      cases hc : w.valid != (probe p && w.size.is_valid) <;> simp [hc]
  | FarmSizeChanged s =>
      rw [update_farm_size_changed, update_farm_size_changed]
      simp only [Env.mk_probe, Env.mk_alive]
      cases hc : w.valid != (w.path.is_valid && is_size_valid s) <;> simp [hc]

/-- The warning count of `update` equals the number of emitted notifications
whose delivery failed. -/
theorem update_warnings_count_failures (probe : PathBuf → Bool) (w : FarmWidget)
    (input : FarmWidgetInput) :
    (update ⟨probe, false⟩ w input).warnings =
      (update ⟨probe, false⟩ w input).emitted.length := by
  cases input with
  | DirectorySelected p =>
      rw [update_directory_selected]
      simp only [Env.mk_probe, Env.mk_alive]
      cases hc : w.valid != (probe p && w.size.is_valid) <;> simp [hc]
  | FarmSizeChanged s =>
      rw [update_farm_size_changed]
      simp only [Env.mk_probe, Env.mk_alive]
      cases hc : w.valid != (w.path.is_valid && is_size_valid s) <;> simp [hc]

/-- C5: an update cycle resets both fields' change flags once at its start,
before the event's mutations, so when the cycle finishes the flags are true
exactly for the mutations that cycle performed: a size event leaves the path
flags cleared and both size flags set; a path event leaves the size flags
cleared and both path flags set — whatever the flags were before. -/
theorem c5_change_flags_reset_each_cycle (env : Env) (w : FarmWidget) :
    (∀ s : String,
      (update env w (FarmSizeChanged s)).state.path.value_changed = false
      ∧ (update env w (FarmSizeChanged s)).state.path.validity_changed = false
      ∧ (update env w (FarmSizeChanged s)).state.size.value_changed = true
      ∧ (update env w (FarmSizeChanged s)).state.size.validity_changed = true)
    ∧ (∀ p : PathBuf,
      (update env w (DirectorySelected p)).state.size.value_changed = false
      ∧ (update env w (DirectorySelected p)).state.size.validity_changed = false
      ∧ (update env w (DirectorySelected p)).state.path.value_changed = true
      ∧ (update env w (DirectorySelected p)).state.path.validity_changed = true) := by
  constructor
  · intro s
    simp [update_state_farm_size_changed, MaybeValid.reset]
  · intro p
    rw [update_state_directory_selected]
    cases hp : env.is_directory_writable p <;>
      simp [MaybeValid.reset, MaybeValid.yes, MaybeValid.no, hp]

/-- C6: initialization always emits exactly one `ValidityUpdate` notification,
whatever the probe and parse results are. -/
theorem c6_init_always_notifies (env : Env) (v : FarmWidgetInit) (i : DynamicIndex) :
    (init_model env v i).emitted = [ValidityUpdate]
    ∧ (init_model env v i).emitted.count ValidityUpdate = 1 := by
  constructor <;> simp [init_model, Env.send]

/-- C7: a size event always stores the new text as the size field's value,
valid or not, and the domain snapshot returns exactly that text together with
the current path value, without reformatting. -/
theorem c7_size_text_stored_verbatim (env : Env) (w : FarmWidget) (s : String) :
    (update env w (FarmSizeChanged s)).state.size.value = s
    ∧ (update env w (FarmSizeChanged s)).state.farm =
        { path := (update env w (FarmSizeChanged s)).state.path.value, size := s }
    ∧ w.farm = { path := w.path.value, size := w.size.value } := by
  refine ⟨?_, ?_, rfl⟩ <;> simp [update_state_farm_size_changed, farm, MaybeValid.reset]

/-- C8: each event only touches its own field — a size event preserves the
path field's value and validity, a path event preserves the size field's value
and validity, and no event changes the identity token. -/
theorem c8_update_frame (env : Env) (w : FarmWidget) :
    (∀ s : String,
      (update env w (FarmSizeChanged s)).state.path.value = w.path.value
      ∧ (update env w (FarmSizeChanged s)).state.path.is_valid = w.path.is_valid)
    ∧ (∀ p : PathBuf,
      (update env w (DirectorySelected p)).state.size.value = w.size.value
      ∧ (update env w (DirectorySelected p)).state.size.is_valid = w.size.is_valid)
    ∧ (∀ input : FarmWidgetInput, (update env w input).state.index = w.index) := by
  refine ⟨fun s => ?_, fun p => ?_, fun input => ?_⟩
  · simp [update_state_farm_size_changed, MaybeValid.reset]
  · simp [update_state_directory_selected, MaybeValid.reset]
  · cases input with
    | DirectorySelected p => simp [update_state_directory_selected]
    | FarmSizeChanged s => simp [update_state_farm_size_changed]

/-- C9: no operation fails its caller — every operation is a total function
whose state does not depend on whether the collection still listens (a failed
delivery is only counted as a logged warning), parse failures and probe
failures are absorbed into the validity flags, and a dead collection turns
each attempted notification into exactly one warning. -/
theorem c9_no_hard_failure (probe : PathBuf → Bool) (a1 a2 : Bool) (w : FarmWidget)
    (input : FarmWidgetInput) (v : FarmWidgetInit) (i : DynamicIndex)
    (s : String) (p : PathBuf) :
    (update ⟨probe, a1⟩ w input).state = (update ⟨probe, a2⟩ w input).state
    ∧ (update ⟨probe, a1⟩ w input).emitted = (update ⟨probe, a2⟩ w input).emitted
    ∧ (init_model ⟨probe, a1⟩ v i).state = (init_model ⟨probe, a2⟩ v i).state
    ∧ (update ⟨probe, a1⟩ w (FarmSizeChanged s)).state.size.is_valid = is_size_valid s
    ∧ (update ⟨probe, a1⟩ w (DirectorySelected p)).state.path.is_valid = probe p
    ∧ (update ⟨probe, false⟩ w input).warnings =
        (update ⟨probe, false⟩ w input).emitted.length
    ∧ (init_model ⟨probe, false⟩ v i).warnings = 1 := by
  refine ⟨(update_alive_invariant probe a1 a2 w input).1,
    (update_alive_invariant probe a1 a2 w input).2, rfl, ?_, ?_,
    update_warnings_count_failures probe w input, rfl⟩
  · simp [update_state_farm_size_changed]
  · rw [update_state_directory_selected]
    cases hp : probe p <;>
      simp [MaybeValid.yes, MaybeValid.no, Env.mk_probe, hp]

/-- C10: the path error label is visible exactly when the path is invalid and
its value is non-empty; an entry whose path value is still the empty default
shows no error, whatever its validity flags, and in particular a
default-initialized entry shows none. -/
theorem c10_error_label_visibility (w : FarmWidget) :
    (path_error_label_visible w = (!w.path.is_valid && !(w.path.value == "")))
    ∧ (∀ (i : DynamicIndex) (iv vc cc : Bool) (sz : MaybeValid String),
        path_error_label_visible
          { index := i
            path := { value := "", is_valid := iv, value_changed := vc, validity_changed := cc }
            size := sz } = false)
    ∧ (∀ (probe : PathBuf → Bool) (a : Bool) (i : DynamicIndex),
        path_error_label_visible (init_model ⟨probe, a⟩ FarmWidgetInit.default i).state
          = false) := by
  refine ⟨rfl, fun i iv vc cc sz => ?_, fun probe a i => ?_⟩
  · simp [path_error_label_visible]
  · cases hp : probe "" <;>
      simp [init_model, FarmWidgetInit.default, MaybeValid.yes, MaybeValid.no,
        path_error_label_visible, Env.mk_probe, hp]

end Theorems

end SpaceAcres
